import Mathlib

/-!
Shallow embedding of the asynchronous transcription pipeline in
src/audiototext-backend/app.py: the chunking transcription orchestrator
(`transcribe_file`, `split_audio_to_files`), the notification dispatcher
(`send_email_with_fallback`), the submission intake (`submit`) and the
sequential worker (`worker_loop`).

Modelling conventions:
* Durations are integer milliseconds (pydub reports `len(audio)` in ms);
  `duration_s = len(audio) / 1000.0` compared against an integer bound `X`
  is embedded as the exact comparison `1000 * X < durationMs`, which agrees
  with the source's float comparison for all realistic magnitudes.
* External collaborators (Whisper inference, SMTP transport, the fallback
  file write) are oracles passed as explicit parameters: an
  `Except String _` value models a Python call that either returns or
  raises, mirroring the spec's black-box collaborator boundary.
* Temporary files are tracked explicitly: `TmpPath` is the set of
  uuid-named temp paths the pipeline creates, with distinctness of the
  uuid-suffixed names reflected by distinct constructors.
-/

deriving instance DecidableEq for Except

namespace AudioApp

/-- Configuration read from the environment (app.py lines 36-41):
`segLenS` is `SEG_LEN_SECONDS` (default 20), `chunkThresholdS` is
`CHUNK_THRESHOLD_S` (default 40), `maxUploadS` is `MAX_UPLOAD_S`
(default 600), all in whole seconds (`int(os.getenv(...))`). -/
structure Config where
  segLenS : Nat
  chunkThresholdS : Nat
  maxUploadS : Nat
deriving DecidableEq

/-- The default configuration of app.py: SEG_LEN_SECONDS=20,
CHUNK_THRESHOLD_S=40, MAX_UPLOAD_S=600. -/
def defaultCfg : Config := ⟨20, 40, 600⟩

/-- Temporary files created by the pipeline.  The source names them with
fresh uuid4 hex strings (`whisper_input_*.wav`, `whisper_chunk_*_i.wav`,
`upload_*`), so distinct roles and indices are distinct paths; the
constructors encode that freshness. -/
inductive TmpPath where
  | wav : TmpPath
  | chunk : Nat → TmpPath
  | upload : String → TmpPath
deriving DecidableEq

/-- One queued job, the dict built in `submit` (app.py lines 254-260). -/
structure Job where
  job_id : String
  email : String
  audio_path : TmpPath
  filename : String
  submitted_at : Nat
deriving DecidableEq

/-- Python `f"{ms/1000:.1f}"`: the duration in seconds printed with one
decimal digit.  Exact for the tenth-of-a-second values the claims use;
ties round up rather than to even, which never differs on the inputs in
this development. -/
def fmt1 (ms : Nat) : String :=
  let tenths := (ms + 50) / 100
  toString (tenths / 10) ++ "." ++ toString (tenths % 10)

/-- Number of chunks produced by `split_audio_to_files` (app.py line 82):
`range(0, duration_ms, seg_len_ms)` has `⌈duration_ms / seg_len_ms⌉`
elements when `seg_len_ms > 0`. -/
def numChunks (durationMs segLenMs : Nat) : Nat :=
  (durationMs + segLenMs - 1) / segLenMs

/-- The `(start_ms, end_ms)` windows cut by `split_audio_to_files`
(app.py lines 82-84): `start_ms` ranges over `range(0, duration_ms,
seg_len_ms)` and `end_ms = min(start_ms + seg_len_ms, duration_ms)`. -/
def chunkSpans (durationMs segLenMs : Nat) : List (Nat × Nat) :=
  (List.range (numChunks durationMs segLenMs)).map
    fun i => (i * segLenMs, min ((i + 1) * segLenMs) durationMs)

/-- The chunk files written by `split_audio_to_files` (app.py line 85),
one uuid-named file per window, in temporal order. -/
def split_audio_to_files (durationMs segLenMs : Nat) : List TmpPath :=
  (List.range (numChunks durationMs segLenMs)).map TmpPath.chunk

/-- The inline marker substituted for a failed chunk
(app.py line 107): `f"[ERROR transcribing chunk {idx}: {e}]"`. -/
def errMarker (idx : Nat) (e : String) : String :=
  "[ERROR transcribing chunk " ++ toString idx ++ ": " ++ e ++ "]"

/-- The per-chunk texts gathered by the loop in `transcribe_file`
(app.py lines 103-112): chunk `i` (0-based; the marker uses the 1-based
index of `enumerate(..., start=1)`) contributes the collaborator's text
on success and the error marker on failure.  `tr i` is the outcome of
`transcribe_chunk` on chunk `i`. -/
def chunkTexts (n : Nat) (tr : Nat → Except String String) : List String :=
  (List.range n).map fun i =>
    match tr i with
    | .ok t => t
    | .error e => errMarker (i + 1) e

/-- The joined transcript body of the chunked branch (app.py line 113):
`"\n\n".join([p for p in parts if p])` — non-empty parts only, joined by
a blank line. -/
def chunkBody (n : Nat) (tr : Nat → Except String String) : String :=
  String.intercalate "\n\n" ((chunkTexts n tr).filter (fun p => p != ""))

/-- Summary header of the chunked branch (app.py line 114). -/
def chunkSummary (n durationMs : Nat) : String :=
  "(Chunked — " ++ toString n ++ " chunks, original duration " ++ fmt1 durationMs ++ "s)"

/-- Summary header of the single-pass branch (app.py line 119). -/
def singleSummary (durationMs : Nat) : String :=
  "(Single-pass — duration " ++ fmt1 durationMs ++ "s)"

/-- Single-pass branch of `transcribe_file` (app.py lines 116-120) plus
the `finally` cleanup (lines 121-126).  `single` is the outcome of
`model.transcribe(wav_path)` (already `.get("text","").strip()`-ed at the
collaborator boundary); an exception propagates, but the `finally` block
attempts `os.remove` of the working wav on both paths.  That remove is
itself wrapped in `try/except: pass`: `wavRemoveFails` models it
raising, in which case the file survives.  The second component is the
set of temp files this invocation leaves behind. -/
def transcribeSingle (durationMs : Nat) (single : Except String String)
    (wavRemoveFails : Bool) : Except String String × List TmpPath :=
  match single with
  | .ok text => (.ok (singleSummary durationMs ++ "\n\n" ++ text),
                 if wavRemoveFails then [TmpPath.wav] else [])
  | .error e => (.error e, if wavRemoveFails then [TmpPath.wav] else [])

/-- Chunked branch of `transcribe_file` (app.py lines 100-115) plus the
`finally` cleanup.  `exportFail = some k` (with `k < numChunks`) models
`split_audio_to_files` raising while exporting chunk `k`: chunks
`0..k-1` were already written and are NOT cleaned up (their removal loop
is never reached); the exception propagates.  With `segLenMs = 0` Python
`range` raises `ValueError` before exporting anything.  Otherwise every
chunk is transcribed (failures downgraded to markers) and its file's
removal attempted right after its result is captured — that per-chunk
`os.remove` sits in `try/except: pass` (lines 109-112), so a chunk with
`chunkRemoveFails i` survives.  The `finally` then attempts removal of
the wav on every path, itself in `try/except: pass` (lines 121-126), so
the wav survives when `wavRemoveFails`. -/
def transcribeChunked (cfg : Config) (durationMs : Nat)
    (tr : Nat → Except String String) (exportFail : Option Nat)
    (chunkRemoveFails : Nat → Bool) (wavRemoveFails : Bool) :
    Except String String × List TmpPath :=
  if 1000 * cfg.segLenS = 0 then
    (.error "ValueError: range arg 3 must not be zero",
     if wavRemoveFails then [TmpPath.wav] else [])
  else
    match exportFail with
    | some k =>
      if k < numChunks durationMs (1000 * cfg.segLenS) then
        (.error "chunk export failed",
         (List.range k).map TmpPath.chunk
           ++ (if wavRemoveFails then [TmpPath.wav] else []))
      else
        (.ok (chunkSummary (numChunks durationMs (1000 * cfg.segLenS)) durationMs
                ++ "\n\n" ++ chunkBody (numChunks durationMs (1000 * cfg.segLenS)) tr),
         ((List.range (numChunks durationMs (1000 * cfg.segLenS))).filter
             chunkRemoveFails).map TmpPath.chunk
           ++ (if wavRemoveFails then [TmpPath.wav] else []))
    | none =>
      (.ok (chunkSummary (numChunks durationMs (1000 * cfg.segLenS)) durationMs
              ++ "\n\n" ++ chunkBody (numChunks durationMs (1000 * cfg.segLenS)) tr),
       ((List.range (numChunks durationMs (1000 * cfg.segLenS))).filter
           chunkRemoveFails).map TmpPath.chunk
         ++ (if wavRemoveFails then [TmpPath.wav] else []))

/-- `transcribe_file` (app.py lines 94-126), after `ensure_wav_copy`
succeeded with measured duration `durationMs` (normalization failure
precedes the working file's creation and is out of this function's
cleanup scope).  Branch decision (line 100): chunked iff
`duration_s > CHUNK_THRESHOLD_S`, i.e. `1000 * chunkThresholdS <
durationMs`.  Returns the transcript (or the propagated exception) and
the temp files left on disk, with the swallowed `os.remove` failures of
the chunk files and the working wav as explicit oracles. -/
def transcribe_file (cfg : Config) (durationMs : Nat)
    (single : Except String String) (tr : Nat → Except String String)
    (exportFail : Option Nat) (chunkRemoveFails : Nat → Bool)
    (wavRemoveFails : Bool) : Except String String × List TmpPath :=
  if 1000 * cfg.chunkThresholdS < durationMs then
    transcribeChunked cfg durationMs tr exportFail chunkRemoveFails wavRemoveFails
  else
    transcribeSingle durationMs single wavRemoveFails

/-- One attachment tuple `(filename, bytes, mime_type)` as passed to
`send_email_with_fallback` (app.py line 132).  The payload bytes are the
UTF-8 encoding of a string, modelled by the string itself (encoding is
injective and `b""` is empty iff the string is). -/
structure Attachment where
  filename : String
  payload : String
  mime : String
deriving DecidableEq

/-- A header value is accepted by `email.message.EmailMessage` only if it
contains no linefeed or carriage return: `msg["To"] = value` raises
`ValueError` otherwise (Python `email.headerregistry.BaseHeader`).  The
source sets From, To and Subject this way outside any `try` block. -/
def headerOk (s : String) : Bool :=
  s.data.all fun c => !(c == '\n' || c == '\r')

/-- `maintype, subtype = mime.split("/", 1)` (app.py line 142) unpacks
successfully iff the mime string contains a `/`; otherwise Python raises
`ValueError: not enough values to unpack`. -/
def mimeOk (m : String) : Bool :=
  m.data.any fun c => c == '/'

/-- Error text of a rejected header value. -/
def hdrErr : String :=
  "ValueError: Header values may not contain linefeed or carriage return characters"

/-- Error text of a failed mime-type unpack. -/
def unpackErr : String :=
  "ValueError: not enough values to unpack (expected 2, got 1)"

/-- The attachment loop of message construction (app.py lines 140-143):
for each tuple in order, split the mime type — raising the unpack error
when it has no `/` — then add the attachment, whose maintype/subtype
become the Content-Type header value and whose `filename=` parameter
becomes a Content-Disposition header value: CR/LF anywhere in either
raises `ValueError` at header storage. -/
def checkAttachments : List Attachment → Except String Unit
  | [] => .ok ()
  | a :: rest =>
    if mimeOk a.mime then
      if headerOk a.mime then
        if headerOk a.filename then checkAttachments rest
        else .error hdrErr
      else .error hdrErr
    else .error unpackErr

/-- Message construction in `send_email_with_fallback` (app.py lines
134-143), which happens BEFORE the `try` guarding the SMTP send: set
From, To, Subject headers in that order, set the body content (never
raises for a Python `str`), then process the attachments in order. -/
def buildMessage (fromAddr toAddr subject : String) (atts : List Attachment) :
    Except String Unit :=
  if headerOk fromAddr then
    if headerOk toAddr then
      if headerOk subject then checkAttachments atts
      else .error hdrErr
    else .error hdrErr
  else .error hdrErr

/-- What the fallback branch writes (app.py lines 160-165): the first
attachment's payload if `attachments and attachments[0] and
attachments[0][1]` is truthy — i.e. the list is non-empty AND the first
payload is non-empty bytes — otherwise the (encoded) body text. -/
def fallbackContent (atts : List Attachment) (bodyText : String) : String :=
  match atts with
  | [] => bodyText
  | a :: _ => if a.payload != "" then a.payload else bodyText

/-- The value `send_email_with_fallback` produces: the `(ok, err)` pair
it returns, plus the contents of the fallback write attempts it made (an
instrumentation of its file-system effect; the write itself may fail,
which is swallowed by the inner `try`). -/
structure SendResult where
  delivered : Bool
  errorDetail : Option String
  fallbackWrites : List String
deriving DecidableEq

/-- `send_email_with_fallback` (app.py lines 129-169).  `smtpErr = none`
models the SMTP block succeeding, `some e` models any transport stage
raising (all stages sit in one `try`, caught uniformly; the recorded
error string prefixes the exception text — the appended traceback is
abstracted away).  `writeFails` models the fallback `open/write` raising;
it is caught (lines 167-168) and changes nothing observable but the log.
A `.error` result models an exception escaping the function, which can
only come from message construction. -/
def send_email_with_fallback (fromAddr toAddr subject bodyText : String)
    (atts : List Attachment) (fallbackSavePath : Option String)
    (smtpErr : Option String) (writeFails : Bool) : Except String SendResult :=
  match buildMessage fromAddr toAddr subject atts with
  | .error e => .error e
  | .ok () =>
    match smtpErr with
    | none => .ok ⟨true, none, []⟩
    | some e =>
      let err := "SMTP send error: " ++ e
      match fallbackSavePath with
      | none => .ok ⟨false, some err, []⟩
      | some _ => .ok ⟨false, some err, [fallbackContent atts bodyText]⟩

/-- The per-job schedule of the single sequential worker thread: the
`while` loop of `worker_loop` fully processes one dequeued job (taking
`cost j` time) before attempting the next dequeue, so job `i+1` starts
exactly when job `i` finishes.  Entries are
`(job_id, startTime, finishTime)`. -/
def worker_schedule (cost : Job → Nat) : List Job → Nat → List (String × Nat × Nat)
  | [], _ => []
  | j :: rest, t => (j.job_id, t, t + cost j) :: worker_schedule cost rest (t + cost j)

/-- Responses of the `/api/submit` endpoint (app.py lines 228-264). -/
inductive SubmitResp where
  | invalidEmail : SubmitResp
  | tooLong (durationMs : Nat) : SubmitResp
  | accepted (jobId : String) : SubmitResp
deriving DecidableEq

/-- `True` iff the response enqueued a job. -/
def isAccepted : SubmitResp → Bool
  | .accepted _ => true
  | _ => false

/-- `submit` (app.py lines 228-264).  Order of effects, as in the
source: validate that the address contains `@` (line 231); write the
upload to a fresh temp path `dest`; decode it to measure the duration —
`decoded = some d` (ms) on success, `none` when `AudioSegment.from_file`
raises, in which case the whole guard is skipped (lines 250-251); on an
over-long decode, remove `dest` and reject; otherwise build the job dict
and append it to the FIFO queue.  Returns (response, queue, files). -/
def submit (cfg : Config) (email filename : String) (decoded : Option Nat)
    (newId : String) (dest : TmpPath) (now : Nat)
    (q : List Job) (fs : List TmpPath) :
    SubmitResp × List Job × List TmpPath :=
  if email.data.contains '@' then
    let fs1 := fs ++ [dest]
    match decoded with
    | some d =>
      if 1000 * cfg.maxUploadS < d then
        (.tooLong d, q, fs1.erase dest)
      else
        (.accepted newId, q ++ [⟨newId, email, dest, filename, now⟩], fs1)
    | none =>
      (.accepted newId, q ++ [⟨newId, email, dest, filename, now⟩], fs1)
  else
    (.invalidEmail, q, fs)

/-! ### Arithmetic facts about the chunk count -/

/-- The chunk windows cover the whole duration: the last window ends at
`durationMs ≤ numChunks * segLenMs`. -/
theorem numChunks_mul_ge (D M : Nat) (hM : 0 < M) : D ≤ numChunks D M * M := by
  unfold numChunks
  have h1 := Nat.div_add_mod (D + M - 1) M
  have h2 : (D + M - 1) % M < M := Nat.mod_lt _ hM
  rw [Nat.mul_comm]
  generalize hx : M * ((D + M - 1) / M) = x at h1 ⊢
  omega

/-- All windows but the last start strictly inside the audio. -/
theorem numChunks_pred_mul_lt (D M : Nat) (hM : 0 < M) (hD : 0 < D) :
    (numChunks D M - 1) * M < D := by
  unfold numChunks
  have h1 := Nat.div_add_mod (D + M - 1) M
  have h2 : (D + M - 1) % M < M := Nat.mod_lt _ hM
  rw [Nat.sub_mul, Nat.one_mul, Nat.mul_comm ((D + M - 1) / M) M]
  generalize hx : M * ((D + M - 1) / M) = x at h1 ⊢
  omega

/-- `numChunks` is the spec's ceiling division of the duration by the
segment length (both in the same unit). -/
theorem numChunks_eq_ceil (D M : Nat) (hM : 0 < M) :
    numChunks D M = ⌈(D : ℚ) / (M : ℚ)⌉₊ := by
  rcases Nat.eq_zero_or_pos D with hD | hD
  · subst hD
    have : numChunks 0 M = 0 := by
      unfold numChunks
      exact Nat.div_eq_of_lt (by omega)
    rw [this]
    simp
  · have hn : numChunks D M ≠ 0 := by
      intro h
      have := numChunks_mul_ge D M hM
      rw [h] at this
      omega
    rw [eq_comm, Nat.ceil_eq_iff hn]
    have hMQ : (0 : ℚ) < (M : ℚ) := by exact_mod_cast hM
    constructor
    · rw [lt_div_iff₀ hMQ]
      exact_mod_cast numChunks_pred_mul_lt D M hM hD
    · rw [div_le_iff₀ hMQ]
      exact_mod_cast numChunks_mul_ge D M hM

/-- Shape of the windows cut by `split_audio_to_files`: window `i`
spans `[i * M, (i+1) * M)` except the last, which is clipped to end at
the actual duration. -/
theorem chunkSpans_eq (D M : Nat) (hM : 0 < M) :
    chunkSpans D M = (List.range (numChunks D M)).map
      (fun i => (i * M, if i + 1 = numChunks D M then D else (i + 1) * M)) := by
  unfold chunkSpans
  refine List.map_congr_left fun i hi => ?_
  rw [List.mem_range] at hi
  by_cases h : i + 1 = numChunks D M
  · rw [if_pos h]
    have hle : D ≤ (i + 1) * M := by
      rw [h]
      exact numChunks_mul_ge D M hM
    rw [min_eq_right hle]
  · rw [if_neg h]
    have hD : 0 < D := by
      rcases Nat.eq_zero_or_pos D with h0 | h0
      · exfalso
        have : numChunks D M = 0 := by
          rw [h0]
          unfold numChunks
          exact Nat.div_eq_of_lt (by omega)
        omega
      · exact h0
    have h1 : i + 1 ≤ numChunks D M - 1 := by omega
    have h2 : (i + 1) * M ≤ (numChunks D M - 1) * M := mul_le_mul_right' h1 M
    have h3 := numChunks_pred_mul_lt D M hM hD
    rw [min_eq_left (by omega)]

/-! ### Claim theorems: chunking decision and the 90-second scenario -/

/-- Claim C2: for every measured duration, `transcribe_file` takes the
single-pass branch when `durationMs ≤ 1000 * chunkThresholdS` and the
chunked branch otherwise; the chunked branch cuts exactly
`⌈duration / segmentLength⌉` fixed-length windows, the last clipped to
the actual end of the audio. -/
theorem branch_and_count (cfg : Config) (D : Nat)
    (single : Except String String) (tr : Nat → Except String String)
    (exportFail : Option Nat) (chunkRemoveFails : Nat → Bool)
    (wavRemoveFails : Bool) (hL : 0 < cfg.segLenS) :
    transcribe_file cfg D single tr exportFail chunkRemoveFails wavRemoveFails
      = (if 1000 * cfg.chunkThresholdS < D then
           transcribeChunked cfg D tr exportFail chunkRemoveFails wavRemoveFails
         else transcribeSingle D single wavRemoveFails) ∧
    numChunks D (1000 * cfg.segLenS)
      = ⌈(D : ℚ) / ((1000 : ℚ) * (cfg.segLenS : ℚ))⌉₊ ∧
    chunkSpans D (1000 * cfg.segLenS)
      = (List.range (numChunks D (1000 * cfg.segLenS))).map
          (fun i => (i * (1000 * cfg.segLenS),
            if i + 1 = numChunks D (1000 * cfg.segLenS) then D
            else (i + 1) * (1000 * cfg.segLenS))) ∧
    D ≤ numChunks D (1000 * cfg.segLenS) * (1000 * cfg.segLenS) := by
  have hM : 0 < 1000 * cfg.segLenS := by omega
  refine ⟨rfl, ?_, chunkSpans_eq _ _ hM, numChunks_mul_ge _ _ hM⟩
  rw [numChunks_eq_ceil D _ hM]
  norm_cast

/-- Witness for C2 at the default configuration and a 50-second input. -/
theorem branch_and_count_witness :
    0 < defaultCfg.segLenS ∧
    (transcribe_file defaultCfg 50000 (.ok "s") (fun _ => .ok "c") none
        (fun _ => false) false
      = (if 1000 * defaultCfg.chunkThresholdS < 50000 then
           transcribeChunked defaultCfg 50000 (fun _ => .ok "c") none
             (fun _ => false) false
         else transcribeSingle 50000 (.ok "s") false) ∧
     numChunks 50000 (1000 * defaultCfg.segLenS)
       = ⌈((50000 : Nat) : ℚ) / ((1000 : ℚ) * (defaultCfg.segLenS : ℚ))⌉₊ ∧
     chunkSpans 50000 (1000 * defaultCfg.segLenS)
       = (List.range (numChunks 50000 (1000 * defaultCfg.segLenS))).map
           (fun i => (i * (1000 * defaultCfg.segLenS),
             if i + 1 = numChunks 50000 (1000 * defaultCfg.segLenS) then 50000
             else (i + 1) * (1000 * defaultCfg.segLenS))) ∧
     50000 ≤ numChunks 50000 (1000 * defaultCfg.segLenS) * (1000 * defaultCfg.segLenS)) :=
  ⟨by decide,
   branch_and_count defaultCfg 50000 (.ok "s") (fun _ => .ok "c") none
     (fun _ => false) false (by decide)⟩

/-- Claim C8: a 90-second input with segmentLength 20 s and
chunkThreshold 40 s takes the chunked branch, produces exactly 5 windows
of lengths 20, 20, 20, 20 and 10 seconds, and the summary header reads
"(Chunked — 5 chunks, original duration 90.0s)". -/
theorem ninety_second_scenario :
    1000 * defaultCfg.chunkThresholdS < 90000 ∧
    numChunks 90000 (1000 * defaultCfg.segLenS) = 5 ∧
    (chunkSpans 90000 (1000 * defaultCfg.segLenS)).map (fun s => s.2 - s.1)
      = [20000, 20000, 20000, 20000, 10000] ∧
    chunkSummary 5 90000 = "(Chunked — 5 chunks, original duration 90.0s)" ∧
    transcribe_file defaultCfg 90000 (.ok "x") (fun i => .ok ("t" ++ toString i)) none
        (fun _ => false) false
      = (.ok ("(Chunked — 5 chunks, original duration 90.0s)" ++ "\n\n"
               ++ "t0\n\nt1\n\nt2\n\nt3\n\nt4"), []) := by
  decide

/-- Claim C9 (amended): the `finally` block attempts removal of the
canonical working wav on the normal return path and on every exception
path of the chunking/transcription/joining steps; whenever that
best-effort `os.remove` succeeds, the working file is absent from the
final state — whatever the branch and the collaborator outcomes, and
whether the call returns a transcript or propagates an exception. -/
theorem working_file_always_removed (cfg : Config) (D : Nat)
    (single : Except String String) (tr : Nat → Except String String)
    (exportFail : Option Nat) (chunkRemoveFails : Nat → Bool) :
    decide (TmpPath.wav
      ∈ (transcribe_file cfg D single tr exportFail chunkRemoveFails false).2) = false := by
  rw [decide_eq_false_iff_not]
  rcases exportFail with _ | k <;> rcases single with e | t <;>
    simp only [transcribe_file, transcribeChunked, transcribeSingle] <;>
    split_ifs <;> simp_all [List.mem_map]

/-- Counterexample to C9 as stated: the removal is only best-effort —
`os.remove` sits inside `try/except: pass`, so when it fails the
working wav survives even a normal single-pass return, and the final
state does contain the working file. -/
theorem working_file_leak_counterexample :
    (transcribe_file defaultCfg 1000 (.ok "hi") (fun _ => .ok "t") none
        (fun _ => false) true).2 = [TmpPath.wav] ∧
    (transcribe_file defaultCfg 1000 (.ok "hi") (fun _ => .ok "t") none
        (fun _ => false) true).1
      = .ok ("(Single-pass — duration 1.0s)" ++ "\n\n" ++ "hi") := by
  decide

/-! ### Per-chunk failure isolation and transcript positions -/

/-- A string ending in a non-empty literal is non-empty. -/
theorem append_ne_empty_right (a b : String) (hb : b.data ≠ []) : a ++ b ≠ "" := by
  intro h
  have h2 : (a ++ b).data = "".data := congrArg String.data h
  rw [String.data_append] at h2
  exact hb (List.append_eq_nil.mp h2).2

/-- The inline error marker is never the empty string, so the non-empty
filter of the join never drops it. -/
theorem errMarker_ne_empty (idx : Nat) (e : String) : errMarker idx e ≠ "" := by
  unfold errMarker
  exact append_ne_empty_right _ "]" (by decide)

/-- The per-position texts the claim expects for a chunked job failing
exactly at position `k`: the marker there, the collaborator's text
everywhere else. -/
def expectedTexts (n k : Nat) (e : String) (t : Nat → String) : List String :=
  (List.range n).map fun i => if i = k then errMarker (k + 1) e else t i

/-- Claim C3 (amended): in a chunked job with `n` segments whose
inference collaborator fails on exactly segment `k` and yields non-empty
text on every other segment, the gathered texts are exactly the `n`
expected positions in temporal order, none is dropped by the non-empty
filter, and the body is their blank-line join. -/
theorem chunk_positions_amended (n k : Nat) (e : String) (t : Nat → String)
    (tr : Nat → Except String String) (hk : k < n)
    (hfail : tr k = .error e)
    (hok : ∀ i ∈ List.range n, i ≠ k → tr i = .ok (t i) ∧ t i ≠ "") :
    chunkTexts n tr = expectedTexts n k e t ∧
    (chunkTexts n tr).filter (fun p => p != "") = chunkTexts n tr ∧
    (chunkTexts n tr).length = n ∧
    chunkBody n tr = String.intercalate "\n\n" (expectedTexts n k e t) := by
  have h1 : chunkTexts n tr = expectedTexts n k e t := by
    unfold chunkTexts expectedTexts
    refine List.map_congr_left fun i hi => ?_
    by_cases h : i = k
    · subst h
      rw [hfail, if_pos rfl]
    · rw [(hok i hi h).1, if_neg h]
  have hne : ∀ p ∈ chunkTexts n tr, p ≠ "" := by
    rw [h1]
    intro p hp
    unfold expectedTexts at hp
    rw [List.mem_map] at hp
    obtain ⟨i, hi, rfl⟩ := hp
    by_cases h : i = k
    · rw [if_pos h]
      exact errMarker_ne_empty _ _
    · rw [if_neg h]
      exact (hok i hi h).2
  have h2 : (chunkTexts n tr).filter (fun p => p != "") = chunkTexts n tr :=
    List.filter_eq_self.mpr fun p hp => bne_iff_ne.mpr (hne p hp)
  have h3 : (chunkTexts n tr).length = n := by
    unfold chunkTexts
    rw [List.length_map, List.length_range]
  refine ⟨h1, h2, h3, ?_⟩
  unfold chunkBody
  rw [h2, h1]

/-- A collaborator that succeeds with empty text on segment 1 and fails
only on segment 2 (0-based). -/
def cexTr : Nat → Except String String := fun i =>
  if i = 0 then .ok "hello" else if i = 1 then .ok "" else .error "boom"

/-- Counterexample to C3 as stated: a 50-second chunked job has 3
segments and its collaborator fails on exactly one of them (segment
index 2), yet the joined body holds only 2 positions — the successful
but empty transcript of segment 1 is silently dropped by the non-empty
filter of the join. -/
theorem chunk_positions_counterexample :
    1000 * defaultCfg.chunkThresholdS < 50000 ∧
    numChunks 50000 (1000 * defaultCfg.segLenS) = 3 ∧
    cexTr 0 = .ok "hello" ∧ cexTr 1 = .ok "" ∧ cexTr 2 = .error "boom" ∧
    chunkTexts 3 cexTr = ["hello", "", "[ERROR transcribing chunk 3: boom]"] ∧
    ((chunkTexts 3 cexTr).filter (fun p => p != "")).length = 2 ∧
    chunkBody 3 cexTr = "hello\n\n[ERROR transcribing chunk 3: boom]" := by
  decide

/-- A collaborator failing only on segment 2, non-empty elsewhere. -/
def wTr : Nat → Except String String := fun i =>
  if i = 2 then .error "boom" else .ok "a"

/-- Witness for the amended C3 at three segments failing on the last. -/
theorem chunk_positions_witness :
    2 < 3 ∧
    (chunkTexts 3 wTr = expectedTexts 3 2 "boom" (fun _ => "a") ∧
     (chunkTexts 3 wTr).filter (fun p => p != "") = chunkTexts 3 wTr ∧
     (chunkTexts 3 wTr).length = 3 ∧
     chunkBody 3 wTr = String.intercalate "\n\n" (expectedTexts 3 2 "boom" (fun _ => "a"))) :=
  ⟨by decide,
   chunk_positions_amended 3 2 "boom" (fun _ => "a") wTr (by decide) (by decide)
     (by
       intro i _ hne
       refine ⟨by simp [wTr, hne], ?_⟩
       show "a" ≠ ""
       decide)⟩

/-! ### Dispatcher claims -/

/-- After a successful message construction, the dispatcher's body
reduces to the SMTP attempt and, on failure, the single fallback
write. -/
theorem send_eq_of_smtp_fail (fromAddr toAddr subject bodyText : String)
    (atts : List Attachment) (p e : String) (writeFails : Bool)
    (hb : buildMessage fromAddr toAddr subject atts = .ok ()) :
    send_email_with_fallback fromAddr toAddr subject bodyText atts (some p) (some e) writeFails
      = .ok ⟨false, some ("SMTP send error: " ++ e), [fallbackContent atts bodyText]⟩ := by
  unfold send_email_with_fallback
  rw [hb]

/-- Claim C4 (amended): whenever transport delivery fails and a fallback
path is given (and the message was constructible at all — the claim's
premise that a delivery attempt happened), the dispatcher performs
exactly one fallback write; it holds the first attachment's payload when
an attachment exists AND its payload is non-empty, and the body text
otherwise; the write's own failure changes nothing and the function
still returns a failure outcome. -/
theorem delivery_failure_single_fallback (fromAddr toAddr subject bodyText : String)
    (atts : List Attachment) (p e : String) (writeFails : Bool)
    (hb : buildMessage fromAddr toAddr subject atts = .ok ()) :
    send_email_with_fallback fromAddr toAddr subject bodyText atts (some p) (some e) writeFails
      = .ok ⟨false, some ("SMTP send error: " ++ e), [fallbackContent atts bodyText]⟩ :=
  send_eq_of_smtp_fail fromAddr toAddr subject bodyText atts p e writeFails hb

/-- Witness for the amended C4: one delivery failure with a non-empty
attachment, the fallback write itself failing; exactly one write is
attempted, holding the attachment payload, and a failure outcome is
returned. -/
theorem delivery_failure_single_fallback_witness :
    buildMessage "no-reply@example.com" "dest@example.com" "s2"
      [⟨"a.txt", "payload", "text/plain"⟩] = .ok () ∧
    send_email_with_fallback "no-reply@example.com" "dest@example.com" "s2" "body2"
        [⟨"a.txt", "payload", "text/plain"⟩] (some "fbp") (some "down") true
      = .ok ⟨false, some ("SMTP send error: " ++ "down"),
             [fallbackContent [⟨"a.txt", "payload", "text/plain"⟩] "body2"]⟩ :=
  ⟨by decide,
   delivery_failure_single_fallback "no-reply@example.com" "dest@example.com" "s2" "body2"
     [⟨"a.txt", "payload", "text/plain"⟩] "fbp" "down" true (by decide)⟩

/-- Counterexample to C4 as stated: an attachment exists but its payload
is the empty bytes, so the Python truthiness test
`attachments and attachments[0] and attachments[0][1]` is false and the
single fallback write holds the body text "hello" instead of the first
attachment's raw (empty) payload that the claim promises. -/
theorem fallback_empty_payload_counterexample :
    send_email_with_fallback "no-reply@example.com" "user@example.com" "s" "hello"
        [⟨"f.txt", "", "text/plain"⟩] (some "fb") (some "err") false
      = .ok ⟨false, some "SMTP send error: err", ["hello"]⟩ ∧
    ("hello" : String) ≠ "" := by
  decide

/-- Claim C5: a submission whose measured duration exceeds the
configured ceiling is rejected before any job is created — whatever the
address, the queue is returned unchanged and the response is never an
acceptance. -/
theorem overlong_submission_rejected (cfg : Config) (email filename newId : String)
    (dest : TmpPath) (now d : Nat) (q : List Job) (fs : List TmpPath)
    (hd : 1000 * cfg.maxUploadS < d) :
    (submit cfg email filename (some d) newId dest now q fs).2.1 = q ∧
    isAccepted (submit cfg email filename (some d) newId dest now q fs).1 = false := by
  by_cases he : email.data.contains '@' = true
  · simp at he
    simp [submit, he, hd, isAccepted]
  · simp at he
    simp [submit, he, isAccepted]

/-- Witness for C5: a 700-second upload against the default 600-second
ceiling leaves an empty queue empty and is not accepted. -/
theorem overlong_submission_rejected_witness :
    1000 * defaultCfg.maxUploadS < 700000 ∧
    ((submit defaultCfg "user@example.com" "a.mp3" (some 700000) "id1"
        (.upload "u1") 5 [] []).2.1 = [] ∧
     isAccepted (submit defaultCfg "user@example.com" "a.mp3" (some 700000) "id1"
        (.upload "u1") 5 [] []).1 = false) :=
  ⟨by decide,
   overlong_submission_rejected defaultCfg "user@example.com" "a.mp3" "id1"
     (.upload "u1") 5 700000 [] [] (by decide)⟩

/-- Claim C10: when decoding the upload fails at intake (the
`AudioSegment.from_file` call raises), `submit` does not reject — the
duration guard is skipped entirely and the job is created and appended
to the queue anyway, its audio path pointing at the undecodable file,
which stays on disk for the worker. -/
theorem decode_failure_enqueues_anyway (cfg : Config) (email filename newId : String)
    (dest : TmpPath) (now : Nat) (q : List Job) (fs : List TmpPath)
    (he : email.data.contains '@' = true) :
    submit cfg email filename none newId dest now q fs
      = (.accepted newId, q ++ [⟨newId, email, dest, filename, now⟩], fs ++ [dest]) := by
  simp at he
  simp [submit, he]

/-- Witness for C10 at a concrete undecodable upload. -/
theorem decode_failure_enqueues_anyway_witness :
    ("u@e.x" : String).data.contains '@' = true ∧
    submit defaultCfg "u@e.x" "bad.bin" none "id2" (.upload "u9") 7 [] []
      = (.accepted "id2", [] ++ [⟨"id2", "u@e.x", .upload "u9", "bad.bin", 7⟩],
         [] ++ [.upload "u9"]) :=
  ⟨by decide,
   decode_failure_enqueues_anyway defaultCfg "u@e.x" "bad.bin" "id2"
     (.upload "u9") 7 [] [] (by decide)⟩

/-! ### FIFO processing claims -/

/-- The schedule lists the jobs in exactly their submission order. -/
theorem worker_schedule_ids (cost : Job → Nat) (q : List Job) (t : Nat) :
    (worker_schedule cost q t).map (fun en => en.1) = q.map Job.job_id := by
  induction q generalizing t with
  | nil => rfl
  | cons j rest ih => simp [worker_schedule, ih]

/-- Every entry of a schedule started at time `t` starts no earlier
than `t`. -/
theorem worker_schedule_start_ge (cost : Job → Nat) (q : List Job) (t : Nat) :
    ∀ en ∈ worker_schedule cost q t, t ≤ en.2.1 := by
  induction q generalizing t with
  | nil =>
    intro en h
    simp [worker_schedule] at h
  | cons j rest ih =>
    intro en h
    rw [worker_schedule, List.mem_cons] at h
    rcases h with h | h
    · subst h
      exact Nat.le_refl t
    · exact le_trans (Nat.le_add_right t (cost j)) (ih (t + cost j) en h)

/-- An earlier schedule entry finishes no later than a later entry
starts. -/
theorem worker_schedule_ordered (cost : Job → Nat) :
    ∀ (q : List Job) (t i j : Nat) (ei ej : String × Nat × Nat), i < j →
      (worker_schedule cost q t)[i]? = some ei →
      (worker_schedule cost q t)[j]? = some ej →
      ei.2.2 ≤ ej.2.1 := by
  intro q
  induction q with
  | nil =>
    intro t i j ei ej _ hi _
    simp [worker_schedule] at hi
  | cons a rest ih =>
    intro t i j ei ej hij hi hj
    rcases i with _ | i
    · rcases j with _ | j
      · omega
      · have hi2 : ei = (a.job_id, t, t + cost a) := by
          rw [worker_schedule, List.getElem?_cons_zero] at hi
          exact (Option.some.injEq _ _ ▸ hi).symm
        have hj2 : ej ∈ worker_schedule cost rest (t + cost a) := by
          rw [worker_schedule, List.getElem?_cons_succ] at hj
          exact List.getElem?_mem hj
        rw [hi2]
        exact worker_schedule_start_ge cost rest (t + cost a) ej hj2
    · rcases j with _ | j
      · omega
      · rw [worker_schedule, List.getElem?_cons_succ] at hi hj
        exact ih (t + cost a) i j ei ej (by omega) hi hj

/-- Claim C7: the single sequential worker processes jobs in strict
FIFO submission order, one fully at a time — the schedule's id sequence
equals the queue's submission order, and any earlier job's finish time
is at most any later job's start time, for every assignment of per-job
processing costs. -/
theorem fifo_processing (cost : Job → Nat) (q : List Job) (i j : Nat)
    (ei ej : String × Nat × Nat) (hij : i < j)
    (hi : (worker_schedule cost q 0)[i]? = some ei)
    (hj : (worker_schedule cost q 0)[j]? = some ej) :
    (worker_schedule cost q 0).map (fun en => en.1) = q.map Job.job_id ∧
    ei.2.2 ≤ ej.2.1 :=
  ⟨worker_schedule_ids cost q 0,
   worker_schedule_ordered cost q 0 i j ei ej hij hi hj⟩

/-- First of two back-to-back jobs; its processing takes much longer
than the second's would. -/
def fifoJobA : Job := ⟨"ja", "a@x", .upload "ua", "a.wav", 0⟩

/-- Second of two back-to-back jobs. -/
def fifoJobB : Job := ⟨"jb", "b@x", .upload "ub", "b.wav", 1⟩

/-- Per-job processing cost: the first job is 100 times slower. -/
def fifoCost : Job → Nat := fun j => if j.job_id == "ja" then 100 else 1

/-- Witness for C7: two back-to-back jobs with the first much slower
are still processed in submission order, the first finishing before the
second starts. -/
theorem fifo_processing_witness :
    0 < 1 ∧
    ((worker_schedule fifoCost [fifoJobA, fifoJobB] 0).map (fun en => en.1)
       = [fifoJobA, fifoJobB].map Job.job_id ∧
     (("ja", 0, 100) : String × Nat × Nat).2.2
       ≤ (("jb", 100, 101) : String × Nat × Nat).2.1) :=
  ⟨by decide,
   fifo_processing fifoCost [fifoJobA, fifoJobB] 0 1 ("ja", 0, 100) ("jb", 100, 101)
     (by decide) (by decide) (by decide)⟩

end AudioApp
